import Mathlib

/-!
Shallow embedding of the pdvconsole incident dashboard core
(source: src/pdvconsole/vconsole.py).

Python strings are modelled as Lean `String`; Python string comparison
(lexicographic by code point) is modelled by comparing the underlying
character lists (`String.data`) with the lexicographic order on
`List Char`.  Python dictionaries (which preserve insertion order and
update keys in place) are modelled as association lists with an
`upsert` that replaces in place or appends.  `datetime` instants are
modelled as integer seconds since an epoch.
-/

namespace PDV

/-- Enum `SortBy` from the source: CREATED_AT = 0, PRIORITY = 1, URGENCY = 2. -/
inductive SortBy where
  | CREATED_AT
  | PRIORITY
  | URGENCY
deriving DecidableEq, Repr

/-- Dataclass `Incident`.  `last_seen` is an instant in seconds. -/
structure Incident where
  pdid : String
  title : String
  urgency : String
  status : String
  priority : String
  created_at : String
  self_assigned : Bool
  last_seen : Nat
deriving DecidableEq, Repr

/-- Dataclass `Priority`. -/
structure Priority where
  index : Nat
  pdid : String
  name : String
deriving DecidableEq, Repr

/-- The mutable state of class `VConsole`.  The `_incidents` dict is the
`entries` association list (Python dicts preserve insertion order; an
update of an existing key keeps its position). -/
structure VConsole where
  last_updated : String
  update_interval : Nat
  total_incidents : Nat
  total_triggered : Nat
  total_acknowledged : Nat
  total_assigned : Nat
  entries : List (String × Incident)
  priorities : List Priority
  priority_filter : Option String
  urgency_filter : Option String
  sort_by : SortBy
  reverse : Bool
deriving DecidableEq, Repr

/-- `VConsole.__init__`: empty store, no filters, CREATED_AT sort,
reverse off, interval from configuration (a parameter here). -/
def initVC (interval : Nat) : VConsole :=
  { last_updated := ""
    update_interval := interval
    total_incidents := 0
    total_triggered := 0
    total_acknowledged := 0
    total_assigned := 0
    entries := []
    priorities := []
    priority_filter := none
    urgency_filter := none
    sort_by := SortBy.CREATED_AT
    reverse := false }

/-- Python string strict comparison: lexicographic on code points. -/
def strLt (a b : String) : Prop := a.data < b.data

/-- Python string non-strict comparison. -/
def strLe (a b : String) : Prop := a.data ≤ b.data

instance strLt.instDecidable (a b : String) : Decidable (strLt a b) := by
  unfold strLt; infer_instance

instance strLe.instDecidable (a b : String) : Decidable (strLe a b) := by
  unfold strLe; infer_instance

/-- Python comparison of the pairs `(a1, b1) <= (a2, b2)`: lexicographic,
first component strict or equal-then-second. -/
def pairLe (a1 b1 a2 b2 : String) : Prop :=
  strLt a1 a2 ∨ (a1 = a2 ∧ strLe b1 b2)

instance pairLe.instDecidable (a1 b1 a2 b2 : String) :
    Decidable (pairLe a1 b1 a2 b2) := by
  unfold pairLe; infer_instance

/-- `VConsole._sort_key`, read as the comparison it induces on incidents:
PRIORITY mode compares the tuple `(incident.priority, incident.created_at)`,
URGENCY mode the tuple `(incident.urgency, incident.created_at)`, and the
default mode the 1-tuple `(incident.created_at,)`. -/
def sortLe : SortBy → Incident → Incident → Prop
  | SortBy.PRIORITY, a, b => pairLe a.priority a.created_at b.priority b.created_at
  | SortBy.URGENCY, a, b => pairLe a.urgency a.created_at b.urgency b.created_at
  | SortBy.CREATED_AT, a, b => strLe a.created_at b.created_at

instance sortLe.instDecidable (m : SortBy) : DecidableRel (sortLe m) := by
  intro a b
  cases m <;> simp only [sortLe] <;> infer_instance

instance sortLe.instIsTotal (m : SortBy) : IsTotal Incident (sortLe m) where
  total a b := by
    cases m <;> simp only [sortLe, pairLe, strLt, strLe]
    case CREATED_AT => exact le_total _ _
    case PRIORITY =>
      rcases lt_trichotomy a.priority.data b.priority.data with h | h | h
      · exact Or.inl (Or.inl h)
      · have he : a.priority = b.priority := String.toList_inj.mp h
        rcases le_total a.created_at.data b.created_at.data with h2 | h2
        · exact Or.inl (Or.inr ⟨he, h2⟩)
        · exact Or.inr (Or.inr ⟨he.symm, h2⟩)
      · exact Or.inr (Or.inl h)
    case URGENCY =>
      rcases lt_trichotomy a.urgency.data b.urgency.data with h | h | h
      · exact Or.inl (Or.inl h)
      · have he : a.urgency = b.urgency := String.toList_inj.mp h
        rcases le_total a.created_at.data b.created_at.data with h2 | h2
        · exact Or.inl (Or.inr ⟨he, h2⟩)
        · exact Or.inr (Or.inr ⟨he.symm, h2⟩)
      · exact Or.inr (Or.inl h)

instance sortLe.instIsTrans (m : SortBy) : IsTrans Incident (sortLe m) where
  trans a b c hab hbc := by
    cases m <;> simp only [sortLe, pairLe, strLt, strLe] at hab hbc ⊢
    case CREATED_AT => exact le_trans hab hbc
    case PRIORITY =>
      rcases hab with h1 | ⟨h1, h1b⟩ <;> rcases hbc with h2 | ⟨h2, h2b⟩
      · exact Or.inl (lt_trans h1 h2)
      · exact Or.inl (h2 ▸ h1)
      · exact Or.inl (h1 ▸ h2)
      · exact Or.inr ⟨h1.trans h2, le_trans h1b h2b⟩
    case URGENCY =>
      rcases hab with h1 | ⟨h1, h1b⟩ <;> rcases hbc with h2 | ⟨h2, h2b⟩
      · exact Or.inl (lt_trans h1 h2)
      · exact Or.inl (h2 ▸ h1)
      · exact Or.inl (h1 ▸ h2)
      · exact Or.inr ⟨h1.trans h2, le_trans h1b h2b⟩

/-- Truthiness of the Python value stored in a `str | None` field:
`None` and the empty string are falsy. -/
def truthy : Option String → Bool
  | none => false
  | some s => !(s == "")

/-- One `if <filter>: incidents_ = [i for i in incidents_ if proj i == value]`
step of the `VConsole.incidents` property. -/
def applyFilter (f : Option String) (proj : Incident → String)
    (l : List Incident) : List Incident :=
  match f with
  | none => l
  | some v => if v = "" then l else l.filter (fun i => proj i == v)

/-- Property `VConsole.incidents`: list the dict values, filter by the
priority filter when it is truthy, filter by the urgency filter when it is
truthy, stably sort by `_sort_key` (Python `sorted` is stable; insertion
sort is the stable sort used here), and reverse the whole list when the
reverse flag is set. -/
def incidents (s : VConsole) : List Incident :=
  let l0 := s.entries.map Prod.snd
  let l1 := applyFilter s.priority_filter Incident.priority l0
  let l2 := applyFilter s.urgency_filter Incident.urgency l1
  let l3 := List.insertionSort (sortLe s.sort_by) l2
  if s.reverse then l3.reverse else l3

/-- Spec-side filter predicate, read literally from the spec: keep an
incident iff (priority filter unset OR incident.priority == filter) AND
(urgency filter unset OR incident.urgency == filter), where a filter is
unset exactly when it is `none`. -/
def matchesFilter (f : Option String) (v : String) : Bool :=
  match f with
  | none => true
  | some x => v == x

/-- Spec-side visible view, read literally from the spec: filter with
`matchesFilter` on both fields, stably sort by the key of the mode,
then reverse iff the reverse flag is set. -/
def specVisible (s : VConsole) : List Incident :=
  let kept := (s.entries.map Prod.snd).filter
    (fun i => matchesFilter s.priority_filter i.priority &&
              matchesFilter s.urgency_filter i.urgency)
  let sorted := List.insertionSort (sortLe s.sort_by) kept
  if s.reverse then sorted.reverse else sorted

/-- Amended spec-side filter predicate: a filter counts as unset when it
is `none` or the empty string (Python falsiness). -/
def matchesFilterA (f : Option String) (v : String) : Bool :=
  match f with
  | none => true
  | some x => if x = "" then true else v == x

/-- Amended spec-side visible view: same pipeline as `specVisible` but a
filter applies only when it is a non-empty string. -/
def specVisibleA (s : VConsole) : List Incident :=
  let kept := (s.entries.map Prod.snd).filter
    (fun i => matchesFilterA s.priority_filter i.priority &&
              matchesFilterA s.urgency_filter i.urgency)
  let sorted := List.insertionSort (sortLe s.sort_by) kept
  if s.reverse then sorted.reverse else sorted

/-- Keyed insert of `self._incidents[k] = v` into an insertion-ordered
dict: an existing key is overwritten in place, a new key is appended. -/
def upsert (l : List (String × Incident)) (k : String) (v : Incident) :
    List (String × Incident) :=
  match l with
  | [] => [(k, v)]
  | (k2, v2) :: rest =>
      if k2 = k then (k, v) :: rest else (k2, v2) :: upsert rest k v

/-- Method `VConsole.update`: keyed upsert of one incident. -/
def update (s : VConsole) (i : Incident) : VConsole :=
  { s with entries := upsert s.entries i.pdid i }

/-- Dict lookup in the association-list model. -/
def lookupInc (l : List (String × Incident)) (k : String) : Option Incident :=
  match l with
  | [] => none
  | (k2, v) :: rest => if k2 = k then some v else lookupInc rest k

/-- Python `(now - last_seen).seconds`: the seconds component of the
timedelta, i.e. the difference modulo 86400 (Euclidean, matching
timedelta normalisation), NOT the total number of seconds. -/
def staleSecs (now last : Nat) : Int :=
  ((now : Int) - (last : Int)) % 86400

/-- Method `VConsole.clean`: delete every incident whose
`(now - last_seen).seconds` exceeds the update interval. -/
def clean (now : Nat) (s : VConsole) : VConsole :=
  let keep : String × Incident → Bool := fun e =>
    !(decide (staleSecs now e.2.last_seen > (s.update_interval : Int)))
  { s with entries := s.entries.filter keep }

/-- Method `VConsole.update_counts`: recompute the four counters from the
`incidents` property (the filtered, sorted view). -/
def update_counts (s : VConsole) : VConsole :=
  { s with
    total_incidents := (incidents s).length
    total_triggered := ((incidents s).filter (fun i => i.status == "triggered")).length
    total_acknowledged := ((incidents s).filter (fun i => i.status == "acknowledged")).length
    total_assigned := ((incidents s).filter (fun i => i.self_assigned)).length }

/-- Characters accepted by the digit branch of `on_press`. -/
def digitChars : List Char := ['1', '2', '3', '4', '5', '6', '7', '8', '9', '0']

/-- Python `int(key)` for a single digit character. -/
def digitVal (c : Char) : Nat := c.toNat - '0'.toNat

/-- Lookup in `pri_map = {p.index: p.name for p in self.priorities}`:
a dict comprehension keeps the last entry for a repeated key. -/
def priMapGet (ps : List Priority) (k : Nat) : Option String :=
  ((ps.filter (fun p => p.index == k)).getLast?).map Priority.name

/-- Lookup in the literal dict of the urgency branch,
keyed by the RAW key character exactly as in the source
(so an upper-case key falls through to the default `None`). -/
def urgencyMapGet (c : Char) : Option String :=
  if c = 'h' then some "high" else if c = 'l' then some "low" else none

/-- Python `SortBy((self.sort_by.value + 1) % len(SortBy))`. -/
def rotateSort : SortBy → SortBy
  | SortBy.CREATED_AT => SortBy.PRIORITY
  | SortBy.PRIORITY => SortBy.URGENCY
  | SortBy.URGENCY => SortBy.CREATED_AT

/-- Method `VConsole.on_press`: the sequential chain of `if` blocks of the
source, returning the new state and the boolean the method returns
(False exactly on the quit key). -/
def on_press (s : VConsole) (key : Char) : VConsole × Bool :=
  let s1 :=
    if key ∈ digitChars then
      let mapped := priMapGet s.priorities (digitVal key)
      if mapped == s.priority_filter then
        { s with priority_filter := none }
      else
        { s with priority_filter := mapped }
    else s
  let s2 :=
    if key.toLower ∈ ['h', 'l', 'a'] then
      { s1 with urgency_filter := urgencyMapGet key }
    else s1
  let s3 :=
    if key.toLower = 's' then { s2 with sort_by := rotateSort s2.sort_by } else s2
  let s4 :=
    if key.toLower = 'r' then { s3 with reverse := !s3.reverse } else s3
  (s4, !(key.toLower = 'q'))

/-- One event of the incident stream produced by `fetch_incidents`:
either a successfully yielded incident, or the exception that a failed
page fetch or a malformed record raises (which ends the stream). -/
abbrev StreamEvent := Except Unit Incident

/-- The merge loop of `update_pd_details` over one poll cycle:
`async for incident in fetch_incidents(): pd_details.update(incident)`.
Each yielded incident is upserted immediately; an exception propagates,
leaving the store exactly as it was at the failure point. -/
def runPoll (stream : List StreamEvent) (s : VConsole) : VConsole :=
  match stream with
  | [] => s
  | Except.ok i :: rest => runPoll rest (update s i)
  | Except.error _ :: _ => s

/-- The JSON value found under the "priority" key of an incident record:
the key may be absent, hold `null`, or hold an object whose "summary"
key may itself be absent. -/
inductive PriorityField where
  | absent
  | null
  | obj (summary : Option String)
deriving DecidableEq, Repr

/-- An incident record as received from the API.  The five required
string fields are `Option`-valued: `none` models an absent key (whose
subscript access raises KeyError).  `assignments` is flattened to the
list of assignee ids read from it. -/
structure IncidentRecord where
  id : Option String
  title : Option String
  urgency : Option String
  status : Option String
  created_at : Option String
  priority : PriorityField
  assignments : List String
deriving DecidableEq, Repr

/-- Python `priority = incident.get("priority") or {}` followed by
`priority.get("summary", "")`. -/
def prioritySummary : PriorityField → String
  | PriorityField.absent => ""
  | PriorityField.null => ""
  | PriorityField.obj s => s.getD ""

/-- Static method `Incident._is_assigned`: the configured user id (when
present) is among the assignee ids. -/
def is_assigned (userId : Option String) (ids : List String) : Bool :=
  match userId with
  | some u => ids.contains u
  | none => false

/-- Classmethod `Incident.from_dict`: fails (KeyError) iff one of the
five required keys is absent; the priority label defaults to the empty
string when the "priority" key is absent, null, or lacks "summary".
`now` stands for the `datetime.now()` default of `last_seen`. -/
def from_dict (userId : Option String) (now : Nat) (r : IncidentRecord) :
    Option Incident :=
  match r.id, r.title, r.urgency, r.status, r.created_at with
  | some i, some t, some u, some st, some c =>
      some { pdid := i, title := t, urgency := u, status := st
             priority := prioritySummary r.priority
             created_at := c
             self_assigned := is_assigned userId r.assignments
             last_seen := now }
  | _, _, _, _, _ => none

/-- A strict occurrence-order statement: `a` appears at a strictly
earlier position than `b` in `l`. -/
def appearsBefore (l : List Incident) (a b : Incident) : Prop :=
  ∃ i j : Fin l.length, i < j ∧ l.get i = a ∧ l.get j = b

/-- Helper to build concrete incidents for the concrete test states. -/
def mkInc (id pr ca st ur : String) (assigned : Bool) : Incident :=
  { pdid := id, title := "t", urgency := ur, status := st, priority := pr
    created_at := ca, self_assigned := assigned, last_seen := 0 }

/-- Concrete incident yielded by page 1 of a poll cycle that fails on a
later page. -/
def cInc1 : Incident :=
  mkInc "I1" "P1" "2024-01-01T00:00:00Z" "triggered" "high" false

/-- Concrete state for the C2 counterexample: one incident with a
non-empty priority label, and a priority filter set to the empty
string. -/
def c2s : VConsole :=
  { initVC 60 with
    entries := [("I1", mkInc "I1" "P1" "2024-01-01T00:00:00Z" "triggered" "high" false)]
    priority_filter := some "" }

/-- Two concrete incidents with distinct creation instants, for the C2
ordering witness. -/
def c2A : Incident :=
  mkInc "A" "P1" "2024-01-01T00:00:00Z" "triggered" "high" false

/-- Second incident of the C2 ordering witness, created later. -/
def c2B : Incident :=
  mkInc "B" "P1" "2024-01-01T00:00:05Z" "triggered" "high" false

/-- Store holding the two C2 witness incidents, unfiltered, creation-time
sort, reverse off. -/
def c2w : VConsole :=
  { initVC 60 with entries := [("B", c2B), ("A", c2A)] }

/-- Concrete stale incident (last seen at instant 0). -/
def c4inc : Incident :=
  mkInc "I1" "P1" "2024-01-01T00:00:00Z" "triggered" "high" false

/-- Store for C4: one incident last seen at 0, update interval 60 s. -/
def c4s : VConsole :=
  { initVC 60 with entries := [("I1", c4inc)] }

/-- Store for the C5 counterexample: an active priority filter and no
known priorities, so every digit is unmapped. -/
def c5s : VConsole :=
  { initVC 60 with priority_filter := some "P1" }

/-- Store for C6: an active urgency filter, to show uppercase keys clear
it instead of setting it. -/
def c6s : VConsole :=
  { initVC 60 with urgency_filter := some "low" }

/-- Store for the C7 counterexample: digit 1 maps to "P1" while a
different filter "P2" is active. -/
def c7s : VConsole :=
  { initVC 60 with
    priorities := [{ index := 1, pdid := "pid1", name := "P1" }]
    priority_filter := some "P2" }

/-- Store for the C7 witness: digit 1 maps to "P1" and no filter is
active. -/
def w7s : VConsole :=
  { initVC 60 with priorities := [{ index := 1, pdid := "pid1", name := "P1" }] }

/-- Incident with priority label "P10" (numeric rank 10). -/
def q8A : Incident :=
  mkInc "A" "P10" "2024-01-01T00:00:05Z" "triggered" "high" false

/-- Incident with priority label "P2" (numeric rank 2), created earlier. -/
def q8B : Incident :=
  mkInc "B" "P2" "2024-01-01T00:00:00Z" "triggered" "high" false

/-- Store for the C8 witness: priority-mode sort; the label string order
puts "P10" before "P2" although its numeric rank is larger. -/
def q8s : VConsole :=
  { initVC 60 with
    entries := [("B", q8B), ("A", q8A)]
    sort_by := SortBy.PRIORITY }

/-- Store for C9: four incidents in the raw map, urgency filter "high"
hiding one of them; the three visible ones have statuses triggered,
triggered, acknowledged. -/
def c9s : VConsole :=
  { initVC 60 with
    entries :=
      [("A", mkInc "A" "P1" "2024-01-01T00:00:00Z" "triggered" "high" true),
       ("B", mkInc "B" "P1" "2024-01-01T00:00:01Z" "triggered" "high" true),
       ("C", mkInc "C" "P1" "2024-01-01T00:00:02Z" "acknowledged" "high" true),
       ("D", mkInc "D" "P1" "2024-01-01T00:00:03Z" "triggered" "low" false)]
    urgency_filter := some "high" }

/-- Record for the C10 witness: all required keys present, "priority"
key null. -/
def rec10 : IncidentRecord :=
  { id := some "X", title := some "T", urgency := some "high"
    status := some "triggered", created_at := some "2024-01-01T00:00:00Z"
    priority := PriorityField.null, assignments := [] }

/-! Helper lemmas. -/

theorem sortLe_refl (m : SortBy) (a : Incident) : sortLe m a a := by
  cases m
  case CREATED_AT => exact le_refl _
  case PRIORITY => exact Or.inr ⟨rfl, le_refl _⟩
  case URGENCY => exact Or.inr ⟨rfl, le_refl _⟩

theorem incidents_pairwise (s : VConsole) (hr : s.reverse = false) :
    (incidents s).Pairwise (sortLe s.sort_by) := by
  simp only [incidents, hr, Bool.false_eq_true, if_false]
  exact List.sorted_insertionSort _ _

theorem appearsBefore_of_pairwise {m : SortBy} {l : List Incident}
    (hs : l.Pairwise (sortLe m)) {a b : Incident} (ha : a ∈ l) (hb : b ∈ l)
    (hnab : ¬ sortLe m b a) : appearsBefore l a b := by
  obtain ⟨i, hi⟩ := List.mem_iff_get.mp ha
  obtain ⟨j, hj⟩ := List.mem_iff_get.mp hb
  have hp := List.pairwise_iff_get.mp hs
  rcases lt_trichotomy i j with h | h | h
  · exact ⟨i, j, h, hi, hj⟩
  · exfalso
    apply hnab
    have hab : a = b := by rw [← hi, ← hj, h]
    rw [hab]
    exact sortLe_refl m b
  · exfalso
    have := hp j i h
    rw [hi, hj] at this
    exact hnab this

/-! Claim theorems. -/

/-- C1 (counterexample): a poll cycle that yields one incident and then
fails does NOT leave the store as it was: the already-yielded incident is
in the store. -/
theorem claim_C1_cex :
    runPoll [Except.ok cInc1, Except.error ()] (initVC 60) ≠ initVC 60 ∧
    lookupInc (runPoll [Except.ok cInc1, Except.error ()] (initVC 60)).entries "I1" =
      some cInc1 := by
  constructor
  · decide
  · decide

/-- C1 (amended): a poll cycle that fails partway leaves the store equal
to the pre-cycle store with every incident yielded before the failure
point already merged in — the merge is incremental, with no rollback. -/
theorem claim_C1 (pre : List Incident) (rest : List StreamEvent) (s : VConsole) :
    runPoll (pre.map Except.ok ++ Except.error () :: rest) s = pre.foldl update s := by
  induction pre generalizing s with
  | nil => rfl
  | cons a l ih => exact ih (update s a)

/-- C4: `clean` compares the `.seconds` component of the timedelta (the
difference modulo 86400), not the total difference.  An incident one day
and five seconds stale (86405 s > 60 s interval) is KEPT, contradicting
the claim that eviction removes exactly the incidents older than the
interval; within one day the eviction behaves as claimed (100 s > 60 s
evicts). -/
theorem claim_C4 :
    clean 86405 c4s = c4s ∧
    (86405 : Int) - (c4inc.last_seen : Int) > (c4s.update_interval : Int) ∧
    ( clean 100 c4s).entries = [] := by
  refine ⟨by decide, by decide, by decide⟩

/-- C6: key handling is NOT case-insensitive for the urgency letters:
the guard lowercases the key but the dict lookup uses the raw key, so
'H' and 'L' clear the urgency filter instead of setting "high" / "low";
lowercase keys behave as the claim says. -/
theorem claim_C6 :
    (on_press c6s 'H').1.urgency_filter = none ∧
    (on_press c6s 'L').1.urgency_filter = none ∧
    (on_press c6s 'h').1.urgency_filter = some "high" ∧
    (on_press c6s 'l').1.urgency_filter = some "low" ∧
    (on_press c6s 'a').1.urgency_filter = none ∧
    (on_press c6s 'A').1.urgency_filter = none := by
  refine ⟨by decide, by decide, by decide, by decide, by decide, by decide⟩

theorem digit_press (s : VConsole) (key : Char) (h : key ∈ digitChars) :
    on_press s key =
      ((if priMapGet s.priorities (digitVal key) == s.priority_filter
        then { s with priority_filter := none }
        else { s with priority_filter := priMapGet s.priorities (digitVal key) }),
       true) := by
  fin_cases h <;> rfl

/-- C5 (counterexample): with an active priority filter "P1" and no
known priorities, pressing the unmapped digit 0 is NOT a no-op: it
clears the filter. -/
theorem claim_C5_cex :
    priMapGet c5s.priorities (digitVal '0') = none ∧
    (on_press c5s '0').1 ≠ c5s ∧
    (on_press c5s '0').1.priority_filter = none ∧
    c5s.priority_filter = some "P1" := by
  refine ⟨by decide, by decide, by decide, by decide⟩

/-- C5 (amended): handling a digit key whose value has no mapped
priority sets the priority filter to `none` (clearing any active filter)
and changes nothing else; it is a no-op exactly when the filter was
already unset. -/
theorem claim_C5 (s : VConsole) (key : Char) (h1 : key ∈ digitChars)
    (h2 : priMapGet s.priorities (digitVal key) = none) :
    (on_press s key).1 = { s with priority_filter := none } ∧
    (on_press s key).2 = true := by
  rw [digit_press s key h1, h2]
  exact ⟨by simp [ite_self], rfl⟩

/-- C5 (witness): pressing '7' on the initial state (no priorities
loaded, filter unset) leaves the state with the filter unset. -/
theorem claim_C5_witness :
    (on_press (initVC 60) '7').1 = { initVC 60 with priority_filter := none } ∧
    (on_press (initVC 60) '7').2 = true :=
  claim_C5 (initVC 60) '7' (by decide) rfl

/-- C7 (counterexample): digit 1 maps to "P1" while the filter is
"P2"; pressing '1' twice leaves the filter cleared, not restored to
"P2". -/
theorem claim_C7_cex :
    priMapGet c7s.priorities (digitVal '1') = some "P1" ∧
    (on_press (on_press c7s '1').1 '1').1.priority_filter ≠ c7s.priority_filter ∧
    (on_press (on_press c7s '1').1 '1').1.priority_filter = none := by
  refine ⟨by decide, by decide, by decide⟩

/-- C7 (amended): pressing the same mapped digit twice restores the
original priority filter when the original filter was unset or equal to
the mapped name of the digit; when a different filter was active, the two
presses leave the filter cleared. -/
theorem claim_C7 (s : VConsole) (key : Char) (nm : String) (h1 : key ∈ digitChars)
    (h2 : priMapGet s.priorities (digitVal key) = some nm) :
    ((s.priority_filter = none ∨ s.priority_filter = some nm) →
      (on_press (on_press s key).1 key).1.priority_filter = s.priority_filter) ∧
    (∀ m : String, s.priority_filter = some m → m ≠ nm →
      (on_press (on_press s key).1 key).1.priority_filter = none) := by
  have hd1 : (on_press s key).1 =
      (if (some nm == s.priority_filter) then { s with priority_filter := none }
       else { s with priority_filter := some nm }) := by
    rw [digit_press s key h1, h2]
  have hpri : (on_press s key).1.priorities = s.priorities := by
    rw [hd1]
    by_cases hc : (some nm == s.priority_filter) = true
    · rw [if_pos hc]
    · rw [if_neg hc]
  have h2b : priMapGet (on_press s key).1.priorities (digitVal key) = some nm := by
    rw [hpri]; exact h2
  have hd2 : (on_press (on_press s key).1 key).1 =
      (if (some nm == (on_press s key).1.priority_filter)
       then { (on_press s key).1 with priority_filter := none }
       else { (on_press s key).1 with priority_filter := some nm }) := by
    rw [digit_press _ key h1, h2b]
  constructor
  · intro hor
    rcases hor with hpf | hpf
    · rw [hd2]
      simp [hd1, hpf]
    · rw [hd2]
      simp [hd1, hpf]
  · intro m hm hne
    rw [hd2]
    simp [hd1, hm, Ne.symm hne]

/-- C7 (witness): with digit 1 mapped to "P1" and no active filter,
pressing '1' twice restores the (unset) filter. -/
theorem claim_C7_witness :
    (on_press (on_press w7s '1').1 '1').1.priority_filter = w7s.priority_filter :=
  (claim_C7 w7s '1' "P1" (by decide) rfl).1 (Or.inl rfl)

theorem applyFilter_eq (f : Option String) (proj : Incident → String)
    (l : List Incident) :
    applyFilter f proj l = l.filter (fun i => matchesFilterA f (proj i)) := by
  cases f with
  | none => simp [applyFilter, matchesFilterA]
  | some v =>
      by_cases hv : v = ""
      · simp [applyFilter, matchesFilterA, hv]
      · simp [applyFilter, matchesFilterA, hv]

/-- C2 (counterexample): with the priority filter set to the empty
string, the truthiness test of the source treats it as unset and keeps an
incident with priority "P1", while the literal spec predicate (filter
unset = `none`) would drop it. -/
theorem claim_C2_cex : incidents c2s ≠ specVisible c2s := by decide

/-- C2 (amended): the visible view equals filter + stable sort +
optional whole-sequence reverse, where a filter counts as unset when it
is `none` or the empty string; and with creation-time sort and reverse
off, an incident created strictly earlier appears strictly before a
later-created one. -/
theorem claim_C2 :
    (∀ s : VConsole, incidents s = specVisibleA s) ∧
    (∀ (s : VConsole) (a b : Incident),
      s.sort_by = SortBy.CREATED_AT → s.reverse = false →
      a ∈ incidents s → b ∈ incidents s →
      strLt a.created_at b.created_at →
      appearsBefore (incidents s) a b) := by
  constructor
  · intro s
    simp only [incidents, specVisibleA, applyFilter_eq, List.filter_filter]
    rw [List.filter_congr (fun x _ =>
      Bool.and_comm (matchesFilterA s.urgency_filter x.urgency)
        (matchesFilterA s.priority_filter x.priority))]
  · intro s a b hm hr ha hb hlt
    have hp := incidents_pairwise s hr
    rw [hm] at hp
    refine appearsBefore_of_pairwise hp ha hb ?_
    intro hle
    exact absurd hle (not_le.mpr hlt)

/-- C2 (witness): concrete two-incident store, creation-time sort,
reverse off: the view matches the spec-side pipeline and the earlier
incident appears first. -/
theorem claim_C2_witness :
    incidents c2w = specVisibleA c2w ∧ appearsBefore (incidents c2w) c2A c2B :=
  ⟨claim_C2.1 c2w,
   claim_C2.2 c2w c2A c2B rfl rfl (by decide) (by decide) (by decide)⟩

theorem lookup_upsert (l : List (String × Incident)) (k : String) (v : Incident)
    (p : String) :
    lookupInc (upsert l k v) p = if k = p then some v else lookupInc l p := by
  induction l with
  | nil => rfl
  | cons hd tl ih =>
      obtain ⟨k2, v2⟩ := hd
      by_cases h : k2 = k
      · subst h
        by_cases hkp : k2 = p <;> simp [upsert, lookupInc, hkp]
      · by_cases hkp : k = p
        · subst hkp
          simp [upsert, lookupInc, h, ih]
        · have hpk : ¬ p = k := fun e => hkp e.symm
          by_cases h2p : k2 = p
          · simp [upsert, lookupInc, h, hkp, h2p, hpk, ih]
          · simp [upsert, lookupInc, h, hkp, h2p, hpk, ih]

theorem lookup_eq_none (l : List (String × Incident)) (p : String) :
    lookupInc l p = none ↔ p ∉ l.map Prod.fst := by
  induction l with
  | nil => simp [lookupInc]
  | cons hd tl ih =>
      obtain ⟨k2, v2⟩ := hd
      by_cases h : k2 = p
      · simp [lookupInc, h]
      · have hpk : ¬ p = k2 := fun e => h e.symm
        simp [lookupInc, h, hpk, ih]

theorem foldl_update_lookup (calls : List Incident) (s : VConsole) (p : String) :
    lookupInc (calls.foldl update s).entries p =
      (calls.reverse.find? (fun c => c.pdid == p)).or (lookupInc s.entries p) := by
  induction calls generalizing s with
  | nil => simp
  | cons c cs ih =>
      rw [List.foldl_cons, ih, List.reverse_cons, List.find?_append, Option.or_assoc]
      congr 1
      rw [show (update s c).entries = upsert s.entries c.pdid c from rfl, lookup_upsert]
      by_cases h : c.pdid = p
      · simp [List.find?, h]
      · have hb : (c.pdid == p) = false := by
          simp [h]
        simp [List.find?, h, hb]

theorem mem_keys_upsert (l : List (String × Incident)) (k : String) (v : Incident)
    (p : String) :
    p ∈ (upsert l k v).map Prod.fst ↔ p = k ∨ p ∈ l.map Prod.fst := by
  induction l with
  | nil => simp [upsert]
  | cons hd tl ih =>
      obtain ⟨k2, v2⟩ := hd
      by_cases h : k2 = k
      · subst h
        simp [upsert]
      · simp [upsert, h, ih]
        tauto

theorem nodup_keys_upsert (l : List (String × Incident)) (k : String) (v : Incident)
    (h : (l.map Prod.fst).Nodup) : ((upsert l k v).map Prod.fst).Nodup := by
  induction l with
  | nil => simp [upsert]
  | cons hd tl ih =>
      obtain ⟨k2, v2⟩ := hd
      simp only [List.map_cons, List.nodup_cons] at h
      by_cases hk : k2 = k
      · subst hk
        simpa [upsert, List.nodup_cons] using h
      · simp only [upsert, if_neg hk, List.map_cons, List.nodup_cons]
        refine ⟨?_, ih h.2⟩
        rw [mem_keys_upsert]
        rintro (rfl | hmem)
        · exact hk rfl
        · exact h.1 hmem

theorem foldl_update_nodup (calls : List Incident) (s : VConsole)
    (h : (s.entries.map Prod.fst).Nodup) :
    ((calls.foldl update s).entries.map Prod.fst).Nodup := by
  induction calls generalizing s with
  | nil => exact h
  | cons c cs ih => exact ih (update s c) (nodup_keys_upsert _ _ _ h)

/-- C3: starting from the empty store, after any sequence of upserts the
stored keys are free of duplicates, the entry under each identifier is
exactly the most recent upserted incident carrying that identifier, and
an identifier is present iff it appeared in the sequence. -/
theorem claim_C3 (calls : List Incident) :
    ((calls.foldl update (initVC 60)).entries.map Prod.fst).Nodup ∧
    (∀ p : String,
      lookupInc (calls.foldl update (initVC 60)).entries p =
        calls.reverse.find? (fun c => c.pdid == p)) ∧
    (∀ p : String,
      p ∈ (calls.foldl update (initVC 60)).entries.map Prod.fst ↔
        ∃ c ∈ calls, c.pdid = p) := by
  have hlook : ∀ p : String,
      lookupInc (calls.foldl update (initVC 60)).entries p =
        calls.reverse.find? (fun c => c.pdid == p) := by
    intro p
    rw [foldl_update_lookup]
    simp [initVC, lookupInc]
  refine ⟨foldl_update_nodup _ _ (by simp [initVC]), hlook, ?_⟩
  intro p
  constructor
  · intro hmem
    by_contra hno
    push_neg at hno
    have hfind : calls.reverse.find? (fun c => c.pdid == p) = none := by
      apply List.find?_eq_none.mpr
      intro x hx
      simpa [beq_iff_eq] using hno x (List.mem_reverse.mp hx)
    have hl : lookupInc (calls.foldl update (initVC 60)).entries p = none := by
      rw [hlook p, hfind]
    exact absurd hmem ((lookup_eq_none _ _).mp hl)
  · rintro ⟨c, hc, hcp⟩
    by_contra hmem
    have hl := (lookup_eq_none _ _).mpr hmem
    rw [hlook p] at hl
    have := List.find?_eq_none.mp hl c (List.mem_reverse.mpr hc)
    simp [beq_iff_eq] at this
    exact this hcp

/-- C8: with priority-mode sort and reverse off, the visible list is
ordered by the pair (priority label, creation timestamp) ascending,
comparing labels in string order, ties broken by the creation timestamp
alone. -/
theorem claim_C8 (s : VConsole) (hm : s.sort_by = SortBy.PRIORITY)
    (hr : s.reverse = false) :
    (incidents s).Pairwise (fun a b =>
      strLt a.priority b.priority ∨
      (a.priority = b.priority ∧ strLe a.created_at b.created_at)) := by
  have h := incidents_pairwise s hr
  rw [hm] at h
  exact h

/-- C8 (witness): the store with labels "P10" (rank 10, created later)
and "P2" (rank 2, created earlier) is ordered, and the view puts "P10"
first — string order of labels, not numeric rank. -/
theorem claim_C8_witness :
    (incidents q8s).Pairwise (fun a b =>
      strLt a.priority b.priority ∨
      (a.priority = b.priority ∧ strLe a.created_at b.created_at)) ∧
    incidents q8s = [q8A, q8B] ∧ q8A.priority = "P10" ∧ q8B.priority = "P2" :=
  ⟨claim_C8 q8s rfl rfl, by decide, rfl, rfl⟩

/-- C9: after `update_counts`, each counter is derived from the filtered
visible view: total = length, triggered/acknowledged = counts of those
statuses, assigned = count of the self-assigned flag; on a concrete
store with four raw incidents and three visible (statuses triggered,
triggered, acknowledged) the counters are 3, 2, 1. -/
theorem claim_C9 :
    (∀ s : VConsole,
      (update_counts s).total_incidents = (incidents s).length ∧
      (update_counts s).total_triggered =
        ((incidents s).filter (fun i => i.status == "triggered")).length ∧
      (update_counts s).total_acknowledged =
        ((incidents s).filter (fun i => i.status == "acknowledged")).length ∧
      (update_counts s).total_assigned =
        ((incidents s).filter (fun i => i.self_assigned)).length) ∧
    ((update_counts c9s).total_incidents = 3 ∧
     (update_counts c9s).total_triggered = 2 ∧
     (update_counts c9s).total_acknowledged = 1 ∧
     (update_counts c9s).total_assigned = 3 ∧
     c9s.entries.length = 4) :=
  ⟨fun _ => ⟨rfl, rfl, rfl, rfl⟩,
   by decide, by decide, by decide, by decide, by decide⟩

/-- C10: a record whose "priority" key is absent or null (and whose
required keys are present) constructs successfully, with the empty
string as priority label, which sorts before every incident with a
non-empty label under priority-mode ordering. -/
theorem claim_C10 (uid : Option String) (now : Nat) (r : IncidentRecord)
    (hp : r.priority = PriorityField.absent ∨ r.priority = PriorityField.null)
    (i t u st c : String)
    (hi : r.id = some i) (ht : r.title = some t) (hu : r.urgency = some u)
    (hs : r.status = some st) (hc : r.created_at = some c) :
    ∃ inc : Incident, from_dict uid now r = some inc ∧ inc.priority = "" ∧
      ∀ j : Incident, j.priority ≠ "" → sortLe SortBy.PRIORITY inc j := by
  have hpr : prioritySummary r.priority = "" := by
    rcases hp with h | h <;> rw [h] <;> rfl
  refine ⟨{ pdid := i, title := t, urgency := u, status := st
            priority := "", created_at := c
            self_assigned := is_assigned uid r.assignments
            last_seen := now }, ?_, rfl, ?_⟩
  · simp [from_dict, hi, ht, hu, hs, hc, hpr]
  · intro j hj
    refine Or.inl ?_
    show strLt "" j.priority
    unfold strLt
    cases hd : j.priority.data with
    | nil => exact absurd (String.toList_inj.mp hd) hj
    | cons ch rest => exact List.Lex.nil

/-- C10 (witness): the concrete record with a null "priority" key
constructs an incident with the empty priority label. -/
theorem claim_C10_witness :
    ∃ inc : Incident, from_dict none 0 rec10 = some inc ∧ inc.priority = "" ∧
      ∀ j : Incident, j.priority ≠ "" → sortLe SortBy.PRIORITY inc j :=
  claim_C10 none 0 rec10 (Or.inr rfl) "X" "T" "high" "triggered"
    "2024-01-01T00:00:00Z" rfl rfl rfl rfl rfl

end PDV
